import Mathlib

/-!
Shallow embedding of the clinical-assessment repository:
the meningitis and diarrhoea classification workflows from pcat.py and
the outbreak risk classifier and age-constraint manager from
moh_risk_scraper.py, together with theorems settling the specification
claims about them.
-/

/-- State of MeningitisWorkflow (pcat.py): the seven symptom/test flags,
with the constructor defaults of the Python class. -/
structure MeningitisWorkflow where
  coma : Bool := false
  stiff_neck : Bool := false
  bulging_fontanelle : Bool := false
  lp_clear : Bool := true
  csf_wbc_raised : Bool := false
  gram_positive : Bool := false
  test_done : Bool := true
deriving Repr, DecidableEq

/-- MeningitisWorkflow.classify (pcat.py lines 93-100): four-tier
first-match decision table returning the verdict string. -/
def MeningitisWorkflow.classify (w : MeningitisWorkflow) : String :=
  if w.coma || w.stiff_neck || w.bulging_fontanelle || !w.lp_clear then
    "🧠 Definite Meningitis: Treat with Ceftriaxone. Steroids NOT indicated."
  else if w.csf_wbc_raised || w.gram_positive then
    "🧠 Probable Meningitis: Treat with Ceftriaxone. Steroids NOT indicated. Review CSF results."
  else if w.test_done then
    "🧠 Possible Meningitis: Treat with Ceftriaxone. Seek senior review."
  else
    "No clear meningitis signs based on provided data."

/-- Symptom dictionary of DiarrhoeaWorkflow (pcat.py): the nine keys the
classifier reads with .get(key, False); a missing key is the same as a
false flag, so a record of Bools with default false is the faithful model. -/
structure DiarrhoeaSymptoms where
  weak_or_absent_pulse : Bool := false
  cold_hands_temp_gradient : Bool := false
  capillary_refill_gt_3s : Bool := false
  slow_skin_pinch : Bool := false
  sunken_eyes : Bool := false
  unable_to_drink : Bool := false
  skin_pinch_gt_2s : Bool := false
  restless_irritable : Bool := false
  skin_pinch_1_2s : Bool := false
deriving Repr, DecidableEq

/-- DiarrhoeaWorkflow.classify (pcat.py lines 119-128): four-tier
first-match decision table over the age in months and the symptom flags. -/
def DiarrhoeaWorkflow.classify (age : Int) (s : DiarrhoeaSymptoms) : String :=
  if s.weak_or_absent_pulse && s.cold_hands_temp_gradient &&
      s.capillary_refill_gt_3s && s.slow_skin_pinch then
    "💧 Shock: IV Ringer\x27s Lactate 20ml/kg over 15 min → Plan C Step 1"
  else if s.sunken_eyes || s.unable_to_drink || s.skin_pinch_gt_2s then
    "💧 Severe Dehydration: Plan C Step 2 → 70ml/kg IV Ringer\x27s over " ++
      (if age ≥ 12 then "2.5hrs" else "4hrs")
  else if s.sunken_eyes.toNat + s.restless_irritable.toNat + s.skin_pinch_1_2s.toNat ≥ 2 then
    "💧 Some Dehydration: Plan B → ORS 75ml/kg over 4 hours"
  else
    "💧 No Dehydration: Plan A → ORS 10ml/kg after each stool, continue feeding"

/-- Per-tier thresholds of the outbreak risk table
(moh_risk_scraper.py, EnhancedMOHScraper.__init__). The Python float
threshold values are integers; the case-rate is modelled exactly in ℚ. -/
structure TierThreshold where
  cases_per_100k : ℚ
  deaths : Int
deriving Repr, DecidableEq

/-- The three tiers of thresholds for one disease. -/
structure RiskThresholds where
  high : TierThreshold
  medium : TierThreshold
  low : TierThreshold
deriving Repr, DecidableEq

/-- EnhancedMOHScraper state: the age constraint fields set in __init__
(the risk-threshold table is a constant and is modelled separately). -/
structure EnhancedMOHScraper where
  min_age_months : Int := 1
  max_age_months : Int := 60
deriving Repr, DecidableEq

/-- The self.risk_thresholds dict of EnhancedMOHScraper.__init__:
exact (case-sensitive) string keys, as Python dict lookup behaves. -/
def EnhancedMOHScraper.risk_thresholds : String → Option RiskThresholds
  | "meningitis" => some ⟨⟨10, 2⟩, ⟨5, 1⟩, ⟨1, 0⟩⟩
  | "diarrhoea" => some ⟨⟨50, 5⟩, ⟨20, 2⟩, ⟨5, 0⟩⟩
  | _ => none

/-- The cases_per_100k value computed inside _calculate_risk_level:
(cases / 100000) * 100000 if cases > 0 else 0, with exact arithmetic. -/
def EnhancedMOHScraper.case_rate (cases : Int) : ℚ :=
  if cases > 0 then ((cases : ℚ) / 100000) * 100000 else 0

/-- EnhancedMOHScraper._calculate_risk_level (moh_risk_scraper.py lines
221-238): default "Medium" for a disease missing from the table, then
High / Medium / Low by threshold comparison. -/
def EnhancedMOHScraper.calculate_risk_level (disease : String) (cases deaths : Int) : String :=
  match EnhancedMOHScraper.risk_thresholds disease with
  | none => "Medium"
  | some thresholds =>
    if EnhancedMOHScraper.case_rate cases ≥ thresholds.high.cases_per_100k ∨
        deaths ≥ thresholds.high.deaths then
      "High"
    else if EnhancedMOHScraper.case_rate cases ≥ thresholds.medium.cases_per_100k ∨
        deaths ≥ thresholds.medium.deaths then
      "Medium"
    else
      "Low"

/-- EnhancedMOHScraper._affects_target_age_group (moh_risk_scraper.py
lines 336-340): lowercased membership in the fixed two-disease list.
The scraper state is taken as an argument to mirror the method receiver;
the body, like the source, never reads it. -/
def EnhancedMOHScraper.affects_target_age_group
    (_self : EnhancedMOHScraper) (disease : String) : Bool :=
  ["meningitis", "diarrhoea"].contains disease.toLower

/-- AgeConstraintManager state (moh_risk_scraper.py), with the Python
constructor defaults. -/
structure AgeConstraintManager where
  min_age_months : Int := 1
  max_age_months : Int := 60
deriving Repr, DecidableEq

/-- AgeConstraintManager.set_age_range (moh_risk_scraper.py lines
349-356): returns the Bool result together with the post-state. -/
def AgeConstraintManager.set_age_range (m : AgeConstraintManager)
    (min_months max_months : Int) : Bool × AgeConstraintManager :=
  if min_months < 0 ∨ max_months < min_months ∨ max_months > 120 then
    (false, m)
  else
    (true, ⟨min_months, max_months⟩)

/-- AgeConstraintManager.get_age_range. -/
def AgeConstraintManager.get_age_range (m : AgeConstraintManager) : Int × Int :=
  (m.min_age_months, m.max_age_months)

/-- AgeConstraintManager.is_age_in_range: inclusive range check. -/
def AgeConstraintManager.is_age_in_range (m : AgeConstraintManager) (age_months : Int) : Bool :=
  decide (m.min_age_months ≤ age_months ∧ age_months ≤ m.max_age_months)

/-- C2: the meningitis classifier is the four-tier first-match table:
Definite iff coma, stiff neck, or bulging fontanelle, or CSF not clear;
else Probable iff raised CSF WBC or gram positive; else Possible iff a
test was done; else the no-signal fallback. -/
theorem meningitis_classify_table (w : MeningitisWorkflow) :
    (w.classify = "🧠 Definite Meningitis: Treat with Ceftriaxone. Steroids NOT indicated." ↔
      (w.coma = true ∨ w.stiff_neck = true ∨ w.bulging_fontanelle = true ∨ w.lp_clear = false)) ∧
    (w.classify = "🧠 Probable Meningitis: Treat with Ceftriaxone. Steroids NOT indicated. Review CSF results." ↔
      (¬(w.coma = true ∨ w.stiff_neck = true ∨ w.bulging_fontanelle = true ∨ w.lp_clear = false) ∧
        (w.csf_wbc_raised = true ∨ w.gram_positive = true))) ∧
    (w.classify = "🧠 Possible Meningitis: Treat with Ceftriaxone. Seek senior review." ↔
      (¬(w.coma = true ∨ w.stiff_neck = true ∨ w.bulging_fontanelle = true ∨ w.lp_clear = false) ∧
        ¬(w.csf_wbc_raised = true ∨ w.gram_positive = true) ∧ w.test_done = true)) ∧
    (w.classify = "No clear meningitis signs based on provided data." ↔
      (¬(w.coma = true ∨ w.stiff_neck = true ∨ w.bulging_fontanelle = true ∨ w.lp_clear = false) ∧
        ¬(w.csf_wbc_raised = true ∨ w.gram_positive = true) ∧ w.test_done = false)) := by
  obtain ⟨c, sn, bf, lp, wbc, gp, td⟩ := w
  revert c sn bf lp wbc gp td
  decide

/-- C10: a MeningitisWorkflow built from all constructor defaults
classifies as Possible Meningitis, because lp_clear defaults to true and
test_done defaults to true. -/
theorem meningitis_default_is_possible :
    ({} : MeningitisWorkflow).lp_clear = true ∧
    ({} : MeningitisWorkflow).test_done = true ∧
    ({} : MeningitisWorkflow).classify =
      "🧠 Possible Meningitis: Treat with Ceftriaxone. Seek senior review." := by
  decide

/-- C3: the diarrhoea classifier is the four-tier first-match table:
Shock iff all four shock flags; else Severe Dehydration (duration
"2.5hrs" for age ≥ 12 months, "4hrs" for younger) iff any of the three
severe flags; else Some Dehydration iff at least two of the three
moderate flags; else No Dehydration. -/
theorem diarrhoea_classify_table (age : Int) (s : DiarrhoeaSymptoms) :
    (DiarrhoeaWorkflow.classify age s =
        "💧 Shock: IV Ringer\x27s Lactate 20ml/kg over 15 min → Plan C Step 1" ↔
      (s.weak_or_absent_pulse = true ∧ s.cold_hands_temp_gradient = true ∧
        s.capillary_refill_gt_3s = true ∧ s.slow_skin_pinch = true)) ∧
    (DiarrhoeaWorkflow.classify age s =
        "💧 Severe Dehydration: Plan C Step 2 → 70ml/kg IV Ringer\x27s over 2.5hrs" ↔
      (12 ≤ age ∧
        ¬(s.weak_or_absent_pulse = true ∧ s.cold_hands_temp_gradient = true ∧
          s.capillary_refill_gt_3s = true ∧ s.slow_skin_pinch = true) ∧
        (s.sunken_eyes = true ∨ s.unable_to_drink = true ∨ s.skin_pinch_gt_2s = true))) ∧
    (DiarrhoeaWorkflow.classify age s =
        "💧 Severe Dehydration: Plan C Step 2 → 70ml/kg IV Ringer\x27s over 4hrs" ↔
      (age < 12 ∧
        ¬(s.weak_or_absent_pulse = true ∧ s.cold_hands_temp_gradient = true ∧
          s.capillary_refill_gt_3s = true ∧ s.slow_skin_pinch = true) ∧
        (s.sunken_eyes = true ∨ s.unable_to_drink = true ∨ s.skin_pinch_gt_2s = true))) ∧
    (DiarrhoeaWorkflow.classify age s =
        "💧 Some Dehydration: Plan B → ORS 75ml/kg over 4 hours" ↔
      (¬(s.weak_or_absent_pulse = true ∧ s.cold_hands_temp_gradient = true ∧
          s.capillary_refill_gt_3s = true ∧ s.slow_skin_pinch = true) ∧
        ¬(s.sunken_eyes = true ∨ s.unable_to_drink = true ∨ s.skin_pinch_gt_2s = true) ∧
        ((s.sunken_eyes = true ∧ s.restless_irritable = true) ∨
          (s.sunken_eyes = true ∧ s.skin_pinch_1_2s = true) ∨
          (s.restless_irritable = true ∧ s.skin_pinch_1_2s = true)))) ∧
    (DiarrhoeaWorkflow.classify age s =
        "💧 No Dehydration: Plan A → ORS 10ml/kg after each stool, continue feeding" ↔
      (¬(s.weak_or_absent_pulse = true ∧ s.cold_hands_temp_gradient = true ∧
          s.capillary_refill_gt_3s = true ∧ s.slow_skin_pinch = true) ∧
        ¬(s.sunken_eyes = true ∨ s.unable_to_drink = true ∨ s.skin_pinch_gt_2s = true) ∧
        ¬((s.sunken_eyes = true ∧ s.restless_irritable = true) ∨
          (s.sunken_eyes = true ∧ s.skin_pinch_1_2s = true) ∨
          (s.restless_irritable = true ∧ s.skin_pinch_1_2s = true)))) := by
  obtain ⟨p, ch, cr, sp, se, ud, g2, ri, p12⟩ := s
  rcases le_or_lt (12 : Int) age with hage | hage
  · have h12 : ((if age ≥ 12 then "2.5hrs" else "4hrs") : String) = "2.5hrs" := if_pos hage
    revert p ch cr sp se ud g2 ri p12
    simp only [DiarrhoeaWorkflow.classify, h12]
    simp [hage, not_lt.mpr hage]
  · have h12 : ((if age ≥ 12 then "2.5hrs" else "4hrs") : String) = "4hrs" :=
      if_neg (not_le.mpr hage)
    revert p ch cr sp se ud g2 ri p12
    simp only [DiarrhoeaWorkflow.classify, h12]
    simp [hage, not_le.mpr hage]

/-- C9: whenever the diarrhoea classifier returns the Some Dehydration
verdict, sunken_eyes is false (it would have triggered the Severe tier
first) and therefore both restless_irritable and skin_pinch_1_2s are
true. -/
theorem some_dehydration_excludes_sunken_eyes (age : Int) (s : DiarrhoeaSymptoms)
    (h : DiarrhoeaWorkflow.classify age s =
      "💧 Some Dehydration: Plan B → ORS 75ml/kg over 4 hours") :
    s.sunken_eyes = false ∧ s.restless_irritable = true ∧ s.skin_pinch_1_2s = true := by
  obtain ⟨hno4, hnosev, h2of3⟩ := ((diarrhoea_classify_table age s).2.2.2.1).mp h
  obtain ⟨p, ch, cr, sp, se, ud, g2, ri, p12⟩ := s
  simp only at hnosev h2of3 ⊢
  rcases se with _ | _
  · rcases h2of3 with ⟨h1, h2⟩ | ⟨h1, h2⟩ | ⟨h1, h2⟩ <;> simp_all
  · exact absurd (Or.inl rfl) hnosev

/-- Witness for C9 at a concrete input: restless_irritable and
skin_pinch_1_2s true, everything else false, age 24 months. -/
theorem some_dehydration_excludes_sunken_eyes_witness :
    (⟨false, false, false, false, false, false, false, true, true⟩ :
        DiarrhoeaSymptoms).sunken_eyes = false ∧
    (⟨false, false, false, false, false, false, false, true, true⟩ :
        DiarrhoeaSymptoms).restless_irritable = true ∧
    (⟨false, false, false, false, false, false, false, true, true⟩ :
        DiarrhoeaSymptoms).skin_pinch_1_2s = true :=
  some_dehydration_excludes_sunken_eyes 24
    ⟨false, false, false, false, false, false, false, true, true⟩ (by decide)

/-- A disease string that is not exactly one of the two table keys has no
entry in the threshold table. -/
lemma risk_thresholds_none (disease : String)
    (h1 : disease ≠ "meningitis") (h2 : disease ≠ "diarrhoea") :
    EnhancedMOHScraper.risk_thresholds disease = none := by
  unfold EnhancedMOHScraper.risk_thresholds
  split <;> simp_all


/-- For a disease present in the table, the classifier reduces to the
threshold comparisons on that entry. -/
lemma calculate_risk_level_some (disease : String) (t : RiskThresholds)
    (cases deaths : Int) (h : EnhancedMOHScraper.risk_thresholds disease = some t) :
    EnhancedMOHScraper.calculate_risk_level disease cases deaths =
      if EnhancedMOHScraper.case_rate cases ≥ t.high.cases_per_100k ∨
          deaths ≥ t.high.deaths then "High"
      else if EnhancedMOHScraper.case_rate cases ≥ t.medium.cases_per_100k ∨
          deaths ≥ t.medium.deaths then "Medium"
      else "Low" := by
  unfold EnhancedMOHScraper.calculate_risk_level
  rw [h]

/-- For a non-negative case count the normalized case rate is exactly the
case count: dividing and multiplying by 100000 cancels. -/
lemma case_rate_eq_cases (cases : Int) (hc : 0 ≤ cases) :
    EnhancedMOHScraper.case_rate cases = (cases : ℚ) := by
  unfold EnhancedMOHScraper.case_rate
  rcases lt_or_eq_of_le hc with h | h
  · rw [if_pos h]
    field_simp
  · rw [if_neg (by omega)]
    rw [← h]
    norm_num

/-- C1 counterexample: the lookup is not case-insensitive.
"Meningitis" with 25 cases and 3 deaths classifies as "Medium" (the
unknown-disease default) while its lowercase form classifies as "High". -/
theorem calculate_risk_level_not_case_insensitive :
    ¬ (EnhancedMOHScraper.calculate_risk_level "Meningitis" 25 3 =
        EnhancedMOHScraper.calculate_risk_level "meningitis" 25 3) := by
  have h1 : EnhancedMOHScraper.calculate_risk_level "Meningitis" 25 3 = "Medium" := by
    unfold EnhancedMOHScraper.calculate_risk_level
    rw [risk_thresholds_none "Meningitis" (by decide) (by decide)]
  have h2 : EnhancedMOHScraper.calculate_risk_level "meningitis" 25 3 = "High" := by
    rw [calculate_risk_level_some "meningitis" ⟨⟨10, 2⟩, ⟨5, 1⟩, ⟨1, 0⟩⟩ 25 3 rfl,
      case_rate_eq_cases 25 (by norm_num)]
    norm_num
  rw [h1, h2]
  decide

/-- C1 amended: the disease lookup is case-sensitive exact string match
against the lowercase table keys, so any other string — including a
differently capitalized disease name such as "Meningitis" — falls
through to the unknown-disease default "Medium". -/
theorem calculate_risk_level_case_sensitive (disease : String) (cases deaths : Int)
    (h1 : disease ≠ "meningitis") (h2 : disease ≠ "diarrhoea") :
    EnhancedMOHScraper.calculate_risk_level disease cases deaths = "Medium" := by
  unfold EnhancedMOHScraper.calculate_risk_level
  rw [risk_thresholds_none disease h1 h2]

/-- Witness for the amended C1: "Meningitis" is not a table key and
classifies as "Medium". -/
theorem calculate_risk_level_case_sensitive_witness :
    EnhancedMOHScraper.calculate_risk_level "Meningitis" 25 3 = "Medium" :=
  calculate_risk_level_case_sensitive "Meningitis" 25 3 (by decide) (by decide)

/-- Tier selection following the specification text: evaluate tiers from
High down to Low, return the first whose case-rate or death threshold is
met, and Low when none matches. -/
def specFirstMatchingTier (t : RiskThresholds) (rate : ℚ) (deaths : Int) : String :=
  if rate ≥ t.high.cases_per_100k ∨ deaths ≥ t.high.deaths then "High"
  else if rate ≥ t.medium.cases_per_100k ∨ deaths ≥ t.medium.deaths then "Medium"
  else if rate ≥ t.low.cases_per_100k ∨ deaths ≥ t.low.deaths then "Low"
  else "Low"

/-- C4: a disease missing from the table classifies as "Medium"; a
present disease classifies as the first tier from High down to Low whose
threshold is met (Low when none matches); and the five concrete
evaluations from the specification hold. -/
theorem calculate_risk_level_first_match (disease : String) (cases deaths : Int) :
    (EnhancedMOHScraper.risk_thresholds disease = none →
      EnhancedMOHScraper.calculate_risk_level disease cases deaths = "Medium") ∧
    (∀ t, EnhancedMOHScraper.risk_thresholds disease = some t →
      EnhancedMOHScraper.calculate_risk_level disease cases deaths =
        specFirstMatchingTier t (EnhancedMOHScraper.case_rate cases) deaths) ∧
    EnhancedMOHScraper.calculate_risk_level "meningitis" 25 3 = "High" ∧
    EnhancedMOHScraper.calculate_risk_level "meningitis" 8 1 = "Medium" ∧
    EnhancedMOHScraper.calculate_risk_level "meningitis" 2 0 = "Low" ∧
    EnhancedMOHScraper.calculate_risk_level "diarrhoea" 100 6 = "High" ∧
    EnhancedMOHScraper.calculate_risk_level "unknown_disease" 1 0 = "Medium" := by
  refine ⟨?_, ?_, ?_, ?_, ?_, ?_, ?_⟩
  · intro h
    unfold EnhancedMOHScraper.calculate_risk_level
    rw [h]
  · intro t h
    rw [calculate_risk_level_some disease t cases deaths h]
    unfold specFirstMatchingTier
    split_ifs <;> rfl
  · rw [calculate_risk_level_some "meningitis" ⟨⟨10, 2⟩, ⟨5, 1⟩, ⟨1, 0⟩⟩ 25 3 rfl,
      case_rate_eq_cases 25 (by norm_num)]
    norm_num
  · rw [calculate_risk_level_some "meningitis" ⟨⟨10, 2⟩, ⟨5, 1⟩, ⟨1, 0⟩⟩ 8 1 rfl,
      case_rate_eq_cases 8 (by norm_num)]
    norm_num
  · rw [calculate_risk_level_some "meningitis" ⟨⟨10, 2⟩, ⟨5, 1⟩, ⟨1, 0⟩⟩ 2 0 rfl,
      case_rate_eq_cases 2 (by norm_num)]
    norm_num
  · rw [calculate_risk_level_some "diarrhoea" ⟨⟨50, 5⟩, ⟨20, 2⟩, ⟨5, 0⟩⟩ 100 6 rfl,
      case_rate_eq_cases 100 (by norm_num)]
    norm_num
  · unfold EnhancedMOHScraper.calculate_risk_level
    rw [risk_thresholds_none "unknown_disease" (by decide) (by decide)]

/-- Witness for C4: both implications applied at concrete inputs —
"cholera" is absent from the table, "meningitis" is present. -/
theorem calculate_risk_level_first_match_witness :
    EnhancedMOHScraper.calculate_risk_level "cholera" 7 0 = "Medium" ∧
    EnhancedMOHScraper.calculate_risk_level "meningitis" 25 3 =
      specFirstMatchingTier ⟨⟨10, 2⟩, ⟨5, 1⟩, ⟨1, 0⟩⟩
        (EnhancedMOHScraper.case_rate 25) 3 :=
  ⟨(calculate_risk_level_first_match "cholera" 7 0).1 rfl,
    (calculate_risk_level_first_match "meningitis" 25 3).2.1
      ⟨⟨10, 2⟩, ⟨5, 1⟩, ⟨1, 0⟩⟩ rfl⟩

/-- Variant of the classifier that compares the raw case count directly
against the per-tier case thresholds, with no normalization formula. -/
def calculate_risk_level_raw (disease : String) (cases deaths : Int) : String :=
  match EnhancedMOHScraper.risk_thresholds disease with
  | none => "Medium"
  | some thresholds =>
    if (cases : ℚ) ≥ thresholds.high.cases_per_100k ∨
        deaths ≥ thresholds.high.deaths then
      "High"
    else if (cases : ℚ) ≥ thresholds.medium.cases_per_100k ∨
        deaths ≥ thresholds.medium.deaths then
      "Medium"
    else
      "Low"

/-- C6: the (cases / 100000) * 100000 normalization is a no-op — for
every disease present in the table and non-negative cases, the
classifier agrees with the variant comparing the raw case count. -/
theorem case_rate_normalization_noop (disease : String) (t : RiskThresholds)
    (cases deaths : Int) (ht : EnhancedMOHScraper.risk_thresholds disease = some t)
    (hc : 0 ≤ cases) :
    EnhancedMOHScraper.calculate_risk_level disease cases deaths =
      calculate_risk_level_raw disease cases deaths := by
  unfold calculate_risk_level_raw
  rw [calculate_risk_level_some disease t cases deaths ht, ht,
    case_rate_eq_cases cases hc]

/-- Witness for C6 at "meningitis", 25 cases, 3 deaths. -/
theorem case_rate_normalization_noop_witness :
    EnhancedMOHScraper.calculate_risk_level "meningitis" 25 3 =
      calculate_risk_level_raw "meningitis" 25 3 :=
  case_rate_normalization_noop "meningitis" ⟨⟨10, 2⟩, ⟨5, 1⟩, ⟨1, 0⟩⟩ 25 3 rfl
    (by norm_num)

/-- C5: set_age_range is validated and atomic — a pair with
0 ≤ min ≤ max ≤ 120 is accepted (result true, both bounds written
exactly), any other pair is rejected (result false, prior bounds
untouched). -/
theorem set_age_range_atomic (m : AgeConstraintManager) (mn mx : Int) :
    (0 ≤ mn ∧ mn ≤ mx ∧ mx ≤ 120 →
      (m.set_age_range mn mx).1 = true ∧
      (m.set_age_range mn mx).2.get_age_range = (mn, mx)) ∧
    (¬(0 ≤ mn ∧ mn ≤ mx ∧ mx ≤ 120) →
      (m.set_age_range mn mx).1 = false ∧
      (m.set_age_range mn mx).2.get_age_range = m.get_age_range) := by
  refine ⟨fun hv => ?_, fun hv => ?_⟩ <;>
    unfold AgeConstraintManager.set_age_range AgeConstraintManager.get_age_range <;>
    split_ifs with h <;>
    first
      | exact ⟨rfl, rfl⟩
      | (exfalso; omega)

/-- Witness for C5: (6, 24) is accepted and written; (30, 10) is
rejected and leaves the bounds unchanged. -/
theorem set_age_range_atomic_witness :
    (((⟨1, 60⟩ : AgeConstraintManager).set_age_range 6 24).1 = true ∧
      ((⟨1, 60⟩ : AgeConstraintManager).set_age_range 6 24).2.get_age_range = (6, 24)) ∧
    (((⟨1, 60⟩ : AgeConstraintManager).set_age_range 30 10).1 = false ∧
      ((⟨1, 60⟩ : AgeConstraintManager).set_age_range 30 10).2.get_age_range =
        (⟨1, 60⟩ : AgeConstraintManager).get_age_range) :=
  ⟨(set_age_range_atomic ⟨1, 60⟩ 6 24).1 (by omega),
    (set_age_range_atomic ⟨1, 60⟩ 30 10).2 (by omega)⟩

/-- C7: the age-relevance check is membership of the lowercased disease
name in the fixed two-element allow-list, and two scrapers with
different configured age ranges always agree on it. -/
theorem affects_target_age_group_allowlist (s1 s2 : EnhancedMOHScraper) (disease : String) :
    (s1.affects_target_age_group disease = true ↔
      (disease.toLower = "meningitis" ∨ disease.toLower = "diarrhoea")) ∧
    s1.affects_target_age_group disease = s2.affects_target_age_group disease := by
  unfold EnhancedMOHScraper.affects_target_age_group
  refine ⟨?_, rfl⟩
  simp [List.contains]

/-- C8: is_age_in_range is inclusive on both bounds, and after the
successful set_age_range(6, 24) ages 6, 18 and 24 are in range while 30
is not. -/
theorem is_age_in_range_inclusive (m : AgeConstraintManager) (age : Int) :
    (m.is_age_in_range age = true ↔
      (m.min_age_months ≤ age ∧ age ≤ m.max_age_months)) ∧
    (((⟨1, 60⟩ : AgeConstraintManager).set_age_range 6 24).1 = true ∧
      ((⟨1, 60⟩ : AgeConstraintManager).set_age_range 6 24).2.is_age_in_range 6 = true ∧
      ((⟨1, 60⟩ : AgeConstraintManager).set_age_range 6 24).2.is_age_in_range 18 = true ∧
      ((⟨1, 60⟩ : AgeConstraintManager).set_age_range 6 24).2.is_age_in_range 24 = true ∧
      ((⟨1, 60⟩ : AgeConstraintManager).set_age_range 6 24).2.is_age_in_range 30 = false) := by
  refine ⟨?_, by decide, by decide, by decide, by decide, by decide⟩
  simp [AgeConstraintManager.is_age_in_range]
